import Mathlib

/-!
Shallow embedding of the filter-and-aggregate core of the attendance
dashboard (src/app.py): status consolidation via per-stage no-show literal
lists, the three-predicate row filter, and the crosstab aggregation with
derived count/percentage columns and a terminal grand-total row.

String comparison and case-insensitive search are modelled on the
character-list level: Python compares strings lexicographically by code
point, which is what `lexLeB` implements, and a case-insensitive substring
test lower-cases both sides character-wise.
-/

namespace NoShowAnalysis

/-- Lexicographic order on character data, by code point: the comparison
Python applies between strings (used by pandas `between` on a string
column). -/
def lexLeB : List Char → List Char → Bool
  | [], _ => true
  | _ :: _, [] => false
  | a :: as, b :: bs => if a = b then lexLeB as bs else decide (a < b)

/-- Lexicographic string order, Python style. -/
def strLeB (a b : String) : Bool :=
  lexLeB a.data b.data

/-- One lead record, restricted to the columns the filter pipeline reads.
Missing spreadsheet cells (pandas NaN) are `none`. -/
structure Record where
  batch_id : Option Int
  tzDifVsCOT : Option ℚ
  public_email : Option String
  public_email_biography : Option String

/-- Python slice `[3:7]` of a string, as used on the stringified batch id. -/
def sliceFrom3To7 (s : String) : String :=
  ⟨(s.data.drop 3).take 4⟩

/-- Derived column `short_batch_id` from `preprocess_data`:
`df.batch_id.dropna().astype(np.int64).astype(str).str[3:7]`; rows whose
`batch_id` is missing keep a missing `short_batch_id`. -/
def Record.short_batch_id (r : Record) : Option String :=
  r.batch_id.map (fun n => sliceFrom3To7 (toString n))

/-- Pandas `Series.between(lo, hi)` on a string cell: inclusive on both
ends, and `false` on a missing (NaN) cell. -/
def strBetween (lo hi : String) (x : Option String) : Bool :=
  match x with
  | some s => strLeB lo s && strLeB s hi
  | none => false

/-- Pandas `Series.between(lo, hi)` on a numeric cell: inclusive on both
ends, and `false` on a missing (NaN) cell. -/
def ratBetween (lo hi : ℚ) (x : Option ℚ) : Bool :=
  match x with
  | some t => decide (lo ≤ t ∧ t ≤ hi)
  | none => false

/-- Timezone row predicate from the filter block:
`between(lo, hi) | isna()` on the column `TimeZones Dif vs COT`. -/
def tzPredicate (lo hi : ℚ) (r : Record) : Bool :=
  ratBetween lo hi r.tzDifVsCOT || r.tzDifVsCOT.isNone

/-- Batch row predicate from the filter block:
`short_batch_id.between(lo, hi)` with no missing-value disjunct. -/
def batchPredicate (lo hi : String) (r : Record) : Bool :=
  strBetween lo hi r.short_batch_id

/-- String rendering pandas `astype(str)` gives a cell: the value itself
for a present string, and the literal text nan for a missing cell. -/
def pandasStr (x : Option String) : String :=
  match x with
  | some s => s
  | none => "nan"

/-- Lower-cased character data of a string, for case-insensitive search. -/
def lowerData (s : String) : List Char :=
  s.data.map Char.toLower

/-- Substring occurrence test on character lists. -/
def infixOfB (pat hay : List Char) : Bool :=
  match hay with
  | [] => pat.isPrefixOf []
  | _ :: rest => pat.isPrefixOf hay || infixOfB pat rest

/-- Case-insensitive substring test: `str.contains(pat, case=False)` for a
pattern with no regex metacharacters (on such patterns the regex search
pandas performs is exactly a substring search). -/
def containsCI (hay pat : String) : Bool :=
  infixOfB (lowerData pat) (lowerData hay)

/-- Regex metacharacters of Python's `re` module. -/
def regexMetaChars : List Char :=
  ['.', '^', '$', '*', '+', '?', '\x7b', '\x7d', '[', ']', '(', ')', '|', '\\']

/-- Query strings that plain-text search and regex search agree on: no
character is a regex metacharacter. -/
def isLiteralPattern (q : String) : Bool :=
  q.data.all (fun c => !(regexMetaChars.contains c))

/-- Text-search row predicate from the filter block: the query matches the
`public_email` column or the `public_email_biography` column, each first
rendered with `astype(str)`. -/
def textPredicate (q : String) (r : Record) : Bool :=
  containsCI (pandasStr r.public_email) q ||
    containsCI (pandasStr r.public_email_biography) q

/-- Filter criteria gathered from the sidebar each interaction cycle. -/
structure Criteria where
  batchRange : Option (String × String)
  tzRange : ℚ × ℚ
  emailQuery : String

/-- Batch filter stage: with a selected range, keep rows whose
`short_batch_id` lies between its ends; with no range available
(`selected_batch_range` is None), the result is the empty frame. -/
def batchStage (br : Option (String × String)) (rs : List Record) : List Record :=
  match br with
  | some (lo, hi) => rs.filter (fun r => batchPredicate lo hi r)
  | none => []

/-- Timezone filter stage: skipped entirely when the selected range is the
sentinel pair (0, 0), otherwise keep rows passing `tzPredicate`. -/
def tzStage (tz : ℚ × ℚ) (rs : List Record) : List Record :=
  if tz = (0, 0) then rs
  else rs.filter (fun r => tzPredicate tz.1 tz.2 r)

/-- Text filter stage: skipped when the query is empty, otherwise keep
rows passing `textPredicate`. -/
def textStage (q : String) (rs : List Record) : List Record :=
  if q = "" then rs
  else rs.filter (fun r => textPredicate q r)

/-- Full filter pipeline of the `APPLYING FILTERS` block: batch range,
then timezone, then text query, applied in the source order. -/
def applyFilters (c : Criteria) (rs : List Record) : List Record :=
  textStage c.emailQuery (tzStage c.tzRange (batchStage c.batchRange rs))

/-- Sorted unique short batch ids:
`sorted(df.short_batch_id.dropna().unique())`. -/
def sortedShortBatches (rs : List Record) : List String :=
  List.insertionSort (fun a b => strLeB a b = true)
    ((rs.filterMap Record.short_batch_id).dedup)

/-- Selected batch range offered by the slider: the least and greatest
existing short batch id, or none when no valid id exists. -/
def selectedBatchRange (rs : List Record) : Option (String × String) :=
  match sortedShortBatches rs with
  | [] => none
  | lo :: rest => some (lo, rest.getLastD lo)

/-- Record with every field missing, for concrete evaluations. -/
def blankRecord : Record :=
  { batch_id := none
    tzDifVsCOT := none
    public_email := none
    public_email_biography := none }

/-- Rows an analysis keeps: pairs of time-block and raw outcome where both
cells are present, mirroring `df_filtered.dropna(subset=[col_block,
status_col])`.  The aggregation reads only these two columns. -/
def cleanRows (recs : List (Option String × Option String)) : List (String × String) :=
  recs.filterMap (fun p =>
    match p with
    | (some b, some o) => some (b, o)
    | _ => none)

/-- Column labels of the crosstab: the distinct raw outcome values, in
sorted order. -/
def outcomesOf (rows : List (String × String)) : List String :=
  List.insertionSort (fun a b => strLeB a b = true) ((rows.map Prod.snd).dedup)

/-- Row labels of the crosstab: the distinct time-block values, in sorted
order. -/
def blocksOf (rows : List (String × String)) : List String :=
  List.insertionSort (fun a b => strLeB a b = true) ((rows.map Prod.fst).dedup)

/-- One crosstab cell: how many records fall in block `b` with raw
outcome `o`. -/
def cellCount (rows : List (String × String)) (b o : String) : ℕ :=
  (rows.filter (fun p => p.1 == b && p.2 == o)).length

/-- Derived column `Grand Total`: `freq_detailed.sum(axis=1)` over the raw
outcome columns of the row for block `b`. -/
def grandTotal (rows : List (String × String)) (b : String) : ℕ :=
  ((outcomesOf rows).map (fun o => cellCount rows b o)).sum

/-- The no-show columns of a table:
`[col for col in lits if col in freq_detailed.columns]`. -/
def noShowStatuses (rows : List (String × String)) (lits : List String) : List String :=
  lits.filter (fun c => decide (c ∈ outcomesOf rows))

/-- The showed-up columns of a table:
`[col for col in freq_detailed.columns if col not in no_show_statuses]`. -/
def showUpStatuses (rows : List (String × String)) (lits : List String) : List String :=
  (outcomesOf rows).filter (fun c => decide (c ∉ noShowStatuses rows lits))

/-- Derived column `No Show`: sum of the no-show raw columns in the row
for block `b`. -/
def noShow (rows : List (String × String)) (lits : List String) (b : String) : ℕ :=
  ((noShowStatuses rows lits).map (fun o => cellCount rows b o)).sum

/-- Derived column `Showed Up`: sum of the showed-up raw columns in the
row for block `b`. -/
def showedUp (rows : List (String × String)) (lits : List String) (b : String) : ℕ :=
  ((showUpStatuses rows lits).map (fun o => cellCount rows b o)).sum

/-- Percentage of `num` out of `den`, or `none` on a zero denominator (the
float NaN pandas produces for 0/0). -/
def pctOf (num den : ℕ) : Option ℚ :=
  if den = 0 then none else some (100 * (num : ℚ) / (den : ℚ))

/-- Derived column `Showed Up %` of the row for block `b`. -/
def showedUpPct (rows : List (String × String)) (lits : List String) (b : String) :
    Option ℚ :=
  pctOf (showedUp rows lits b) (grandTotal rows b)

/-- Derived column `No Show %` of the row for block `b`. -/
def noShowPct (rows : List (String × String)) (lits : List String) (b : String) :
    Option ℚ :=
  pctOf (noShow rows lits b) (grandTotal rows b)

/-- Sum of the `Grand Total` column over all data rows:
`freq_detailed.sum()` restricted to that column, also the denominator of
`Weight %`. -/
def totalGrandTotal (rows : List (String × String)) : ℕ :=
  ((blocksOf rows).map (fun b => grandTotal rows b)).sum

/-- Derived column `Weight %` of the row for block `b`. -/
def weightPct (rows : List (String × String)) (b : String) : Option ℚ :=
  pctOf (grandTotal rows b) (totalGrandTotal rows)

/-- Terminal-row entry of a raw outcome column `o`: the column-wise sum of
`freq_detailed.sum()` over the data rows. -/
def totalCell (rows : List (String × String)) (o : String) : ℕ :=
  ((blocksOf rows).map (fun b => cellCount rows b o)).sum

/-- Terminal-row entry of the `No Show` column. -/
def totalNoShow (rows : List (String × String)) (lits : List String) : ℕ :=
  ((blocksOf rows).map (fun b => noShow rows lits b)).sum

/-- Terminal-row entry of the `Showed Up` column. -/
def totalShowedUp (rows : List (String × String)) (lits : List String) : ℕ :=
  ((blocksOf rows).map (fun b => showedUp rows lits b)).sum

/-- Terminal-row `Showed Up %`, overwritten after the column sums:
recomputed from the terminal row's own totals. -/
def totalShowedUpPct (rows : List (String × String)) (lits : List String) : Option ℚ :=
  pctOf (totalShowedUp rows lits) (totalGrandTotal rows)

/-- Terminal-row `No Show %`, overwritten after the column sums:
recomputed from the terminal row's own totals. -/
def totalNoShowPct (rows : List (String × String)) (lits : List String) : Option ℚ :=
  pctOf (totalNoShow rows lits) (totalGrandTotal rows)

/-- Terminal-row `Weight %`, set to the constant 100.0. -/
def totalWeightPct : ℚ := 100

/-- Stage-1 no-show literal list (analysis of the 1ST call). -/
def stage1NoShowList : List String := ["Cancelled", "No-Show"]

/-- Stage-2 no-show literal list (analysis of the RCP call), which adds
the case variant with a lowercase s. -/
def stage2NoShowList : List String := ["Cancelled", "No-Show", "No-show"]

/-- Spec wording of per-field rendering for text search: a missing field
is treated as the empty string. -/
def specFieldStr (x : Option String) : String := x.getD ""

/-- Spec wording of the text-search predicate, stated for comparison with
the code's `textPredicate`. -/
def specTextPredicate (q : String) (r : Record) : Bool :=
  containsCI (specFieldStr r.public_email) q ||
    containsCI (specFieldStr r.public_email_biography) q

/-- Case-insensitive substring occurrence, as a proposition: the
lower-cased query occurs contiguously inside the lower-cased text. -/
def CISubstring (q s : String) : Prop :=
  ∃ pre post : List Char, pre ++ lowerData q ++ post = lowerData s

theorem mem_outcomesOf {rows : List (String × String)} {o : String} :
    o ∈ outcomesOf rows ↔ o ∈ rows.map Prod.snd := by
  unfold outcomesOf
  rw [(List.perm_insertionSort _ _).mem_iff, List.mem_dedup]

theorem mem_blocksOf {rows : List (String × String)} {b : String} :
    b ∈ blocksOf rows ↔ b ∈ rows.map Prod.fst := by
  unfold blocksOf
  rw [(List.perm_insertionSort _ _).mem_iff, List.mem_dedup]

theorem outcomesOf_nodup (rows : List (String × String)) : (outcomesOf rows).Nodup :=
  (List.perm_insertionSort _ _).nodup_iff.mpr (List.nodup_dedup _)

theorem mem_noShowStatuses {rows : List (String × String)} {lits : List String}
    {c : String} :
    c ∈ noShowStatuses rows lits ↔ c ∈ lits ∧ c ∈ outcomesOf rows := by
  simp [noShowStatuses]

theorem mem_showUpStatuses {rows : List (String × String)} {lits : List String}
    {c : String} :
    c ∈ showUpStatuses rows lits ↔
      c ∈ outcomesOf rows ∧ c ∉ noShowStatuses rows lits := by
  simp [showUpStatuses]

end NoShowAnalysis

namespace NoShowAnalysis

/-- C4: a record with a missing timezone offset passes the timezone
predicate for every interval, and a record whose offset equals either end
of the interval passes it (the interval is closed on both ends). -/
theorem tz_closed_null_inclusive (lo hi : ℚ) (r : Record) :
    (r.tzDifVsCOT = none → tzPredicate lo hi r = true) ∧
    (lo ≤ hi → r.tzDifVsCOT = some lo → tzPredicate lo hi r = true) ∧
    (lo ≤ hi → r.tzDifVsCOT = some hi → tzPredicate lo hi r = true) := by
  refine ⟨fun h => ?_, fun hle h => ?_, fun hle h => ?_⟩
  · simp [tzPredicate, ratBetween, h]
  · simp [tzPredicate, ratBetween, h, hle]
  · simp [tzPredicate, ratBetween, h, hle]

theorem tz_closed_null_inclusive_witness :
    (blankRecord.tzDifVsCOT = none ∧ tzPredicate (-5) 10 blankRecord = true) ∧
    ((-5 : ℚ) ≤ 10 ∧
      tzPredicate (-5) 10 { blankRecord with tzDifVsCOT := some (-5) } = true) ∧
    ((-5 : ℚ) ≤ 10 ∧
      tzPredicate (-5) 10 { blankRecord with tzDifVsCOT := some 10 } = true) :=
  ⟨⟨rfl, (tz_closed_null_inclusive (-5) 10 blankRecord).1 rfl⟩,
    ⟨by norm_num,
      (tz_closed_null_inclusive (-5) 10 _).2.1 (by norm_num) rfl⟩,
    ⟨by norm_num,
      (tz_closed_null_inclusive (-5) 10 _).2.2 (by norm_num) rfl⟩⟩

/-- C9: when the selected timezone range is the sentinel pair (0, 0), the
timezone filter stage is skipped and every record passes it unchanged,
whatever its offset. -/
theorem tzStage_skipped_at_sentinel (rs : List Record) : tzStage (0, 0) rs = rs := by
  simp [tzStage]

/-- C10: when no record has a valid batch id, the selected batch range is
none and the batch filter stage returns the empty record set. -/
theorem empty_batch_passes_nothing (rs : List Record)
    (h : ∀ r ∈ rs, r.short_batch_id = none) :
    selectedBatchRange rs = none ∧ batchStage (selectedBatchRange rs) rs = [] := by
  have hfm : rs.filterMap Record.short_batch_id = [] := List.filterMap_eq_nil_iff.mpr h
  have hsb : sortedShortBatches rs = [] := by
    unfold sortedShortBatches
    rw [hfm]
    rfl
  have hsel : selectedBatchRange rs = none := by
    rw [selectedBatchRange, hsb]
  exact ⟨hsel, by rw [hsel]; rfl⟩

theorem empty_batch_passes_nothing_witness :
    (∀ r ∈ [blankRecord], r.short_batch_id = none) ∧
    (selectedBatchRange [blankRecord] = none ∧
      batchStage (selectedBatchRange [blankRecord]) [blankRecord] = []) :=
  ⟨by decide, empty_batch_passes_nothing [blankRecord] (by decide)⟩

/-- C3 counterexample: a record whose batch id is missing is excluded by
the batch range filter, not included as a wildcard, contrary to the claim
that the inclusive-null policy applies to the batch predicate. -/
theorem missing_batch_excluded_cex :
    blankRecord.batch_id = none ∧
    batchStage (some ("0001", "9999")) [blankRecord] = [] :=
  ⟨rfl, rfl⟩

/-- C3 amended: a record whose batch id is missing is excluded by the
batch range filter for every selected range, since the between test is
false on a missing short batch id and carries no missing-value disjunct. -/
theorem missing_batch_excluded (lo hi : String) (rs : List Record) (r : Record)
    (h : r.batch_id = none) : r ∉ batchStage (some (lo, hi)) rs := by
  intro hmem
  have hp : batchPredicate lo hi r = true :=
    List.of_mem_filter (show r ∈ rs.filter (fun x => batchPredicate lo hi x) from hmem)
  rw [batchPredicate, Record.short_batch_id, h] at hp
  simp [strBetween] at hp

theorem missing_batch_excluded_witness :
    blankRecord.batch_id = none ∧
    blankRecord ∉ batchStage (some ("0001", "9999")) [blankRecord] :=
  ⟨rfl, missing_batch_excluded "0001" "9999" [blankRecord] blankRecord rfl⟩

/-- C2: an observed raw label counts as no-show under stage 1 exactly when
it is Cancelled or No-Show, as showed-up otherwise; stage 2 additionally
counts the lowercase variant No-show as no-show, which stage 1 counts as
showed-up. -/
theorem consolidation_stage_asymmetry (recs : List (Option String × Option String))
    (o : String) (ho : o ∈ outcomesOf (cleanRows recs)) :
    (o ∈ noShowStatuses (cleanRows recs) stage1NoShowList ↔
        (o = "Cancelled" ∨ o = "No-Show")) ∧
    (o ∈ showUpStatuses (cleanRows recs) stage1NoShowList ↔
        ¬(o = "Cancelled" ∨ o = "No-Show")) ∧
    (o ∈ noShowStatuses (cleanRows recs) stage2NoShowList ↔
        (o = "Cancelled" ∨ o = "No-Show" ∨ o = "No-show")) ∧
    (o = "No-show" → o ∈ showUpStatuses (cleanRows recs) stage1NoShowList) := by
  have hns : ∀ lits : List String,
      o ∈ noShowStatuses (cleanRows recs) lits ↔ o ∈ lits := by
    intro lits
    rw [mem_noShowStatuses]
    exact and_iff_left ho
  have hsu : o ∈ showUpStatuses (cleanRows recs) stage1NoShowList ↔
      o ∉ stage1NoShowList := by
    rw [mem_showUpStatuses, hns]
    exact and_iff_right ho
  refine ⟨?_, ?_, ?_, ?_⟩
  · rw [hns]
    simp [stage1NoShowList]
  · rw [hsu]
    simp [stage1NoShowList]
  · rw [hns]
    simp [stage2NoShowList]
  · intro heq
    rw [hsu]
    subst heq
    decide

/-- Concrete input for the stage-asymmetry claim: one record whose raw
outcome is the lowercase variant. -/
def lowercaseNoShowRecs : List (Option String × Option String) :=
  [(some "08:00-08:30", some "No-show")]

theorem consolidation_stage_asymmetry_witness :
    "No-show" ∈ outcomesOf (cleanRows lowercaseNoShowRecs) ∧
    (("No-show" ∈ noShowStatuses (cleanRows lowercaseNoShowRecs) stage1NoShowList ↔
        ("No-show" = "Cancelled" ∨ "No-show" = "No-Show")) ∧
      ("No-show" ∈ showUpStatuses (cleanRows lowercaseNoShowRecs) stage1NoShowList ↔
        ¬("No-show" = "Cancelled" ∨ "No-show" = "No-Show")) ∧
      ("No-show" ∈ noShowStatuses (cleanRows lowercaseNoShowRecs) stage2NoShowList ↔
        ("No-show" = "Cancelled" ∨ "No-show" = "No-Show" ∨ "No-show" = "No-show")) ∧
      ("No-show" = "No-show" →
        "No-show" ∈ showUpStatuses (cleanRows lowercaseNoShowRecs) stage1NoShowList)) :=
  ⟨by decide, consolidation_stage_asymmetry lowercaseNoShowRecs "No-show" (by decide)⟩

theorem infixOfB_iff (pat hay : List Char) : infixOfB pat hay = true ↔ pat <:+: hay := by
  induction hay with
  | nil => simp [infixOfB, List.isPrefixOf_iff_prefix]
  | cons a rest ih =>
    simp [infixOfB, List.isPrefixOf_iff_prefix, ih, List.infix_cons_iff]

theorem containsCI_iff (s q : String) : containsCI s q = true ↔ CISubstring q s := by
  rw [containsCI, infixOfB_iff]
  exact Iff.rfl

/-- C6 counterexample: with the query nan, a record whose email field is
missing passes the code's text search (pandas astype renders the missing
cell as the text nan), while the spec's treat-missing-as-empty-string
predicate rejects it. -/
theorem text_search_nan_cex :
    blankRecord.public_email = none ∧
    textPredicate "nan" blankRecord = true ∧
    specTextPredicate "nan" blankRecord = false :=
  ⟨rfl, by decide, by decide⟩

/-- C6 amended: for a non-empty query free of regex metacharacters, a
record passes the text filter stage iff the query occurs case-insensitively
inside the astype-str rendering of the email field or of the biography
field, where a missing field renders as the text nan; the predicate is a
total function. -/
theorem text_search_membership (q : String) (rs : List Record) (r : Record)
    (hq : q ≠ "") (hlit : isLiteralPattern q = true) :
    r ∈ textStage q rs ↔
      r ∈ rs ∧ (CISubstring q (pandasStr r.public_email) ∨
        CISubstring q (pandasStr r.public_email_biography)) := by
  rw [textStage, if_neg hq, List.mem_filter]
  simp only [textPredicate, Bool.or_eq_true, containsCI_iff]

/-- Concrete record for the text-search witness, from the spec's example:
the biography mentions ACME Corp, the email does not. -/
def acmeRecord : Record :=
  { blankRecord with
    public_email := some "lead17 at example dot com"
    public_email_biography := some "Senior buyer at ACME Corp" }

theorem text_search_membership_witness :
    ("acme" ≠ "" ∧ isLiteralPattern "acme" = true) ∧
    (acmeRecord ∈ textStage "acme" [acmeRecord] ↔
      acmeRecord ∈ [acmeRecord] ∧
        (CISubstring "acme" (pandasStr acmeRecord.public_email) ∨
          CISubstring "acme" (pandasStr acmeRecord.public_email_biography))) :=
  ⟨⟨by decide, by decide⟩,
    text_search_membership "acme" [acmeRecord] acmeRecord (by decide) (by decide)⟩

theorem mem_of_mem_tzStage {tz : ℚ × ℚ} {rs : List Record} {r : Record}
    (h : r ∈ tzStage tz rs) : r ∈ rs := by
  unfold tzStage at h
  split at h
  · exact h
  · exact List.mem_of_mem_filter h

theorem mem_of_mem_textStage {q : String} {rs : List Record} {r : Record}
    (h : r ∈ textStage q rs) : r ∈ rs := by
  unfold textStage at h
  split at h
  · exact h
  · exact List.mem_of_mem_filter h

theorem tzStage_absorb (tz : ℚ × ℚ) (l m : List Record)
    (hsub : ∀ r ∈ m, r ∈ tzStage tz l) : tzStage tz m = m := by
  unfold tzStage
  split
  · rfl
  · next htz =>
    apply List.filter_eq_self.mpr
    intro r hr
    have hm := hsub r hr
    unfold tzStage at hm
    rw [if_neg htz] at hm
    exact List.of_mem_filter hm

theorem textStage_absorb (q : String) (l m : List Record)
    (hsub : ∀ r ∈ m, r ∈ textStage q l) : textStage q m = m := by
  unfold textStage
  split
  · rfl
  · next hq =>
    apply List.filter_eq_self.mpr
    intro r hr
    have hm := hsub r hr
    unfold textStage at hm
    rw [if_neg hq] at hm
    exact List.of_mem_filter hm

/-- C7: the full filter pipeline is idempotent; applying the same criteria
to its own output returns that output unchanged. -/
theorem applyFilters_idempotent (c : Criteria) (rs : List Record) :
    applyFilters c (applyFilters c rs) = applyFilters c rs := by
  obtain ⟨br, tz, q⟩ := c
  cases br with
  | none =>
    show textStage q (tzStage tz (batchStage none
        (textStage q (tzStage tz (batchStage none rs)))))
      = textStage q (tzStage tz (batchStage none rs))
    simp [batchStage, tzStage, textStage]
  | some p =>
    obtain ⟨lo, hi⟩ := p
    have hmem3 : ∀ r ∈ textStage q (tzStage tz
        (rs.filter (fun x => batchPredicate lo hi x))),
        batchPredicate lo hi r = true := by
      intro r hr
      exact List.of_mem_filter (mem_of_mem_tzStage (mem_of_mem_textStage hr))
    show textStage q (tzStage tz
        ((textStage q (tzStage tz (rs.filter (fun x => batchPredicate lo hi x)))).filter
          (fun x => batchPredicate lo hi x)))
      = textStage q (tzStage tz (rs.filter (fun x => batchPredicate lo hi x)))
    rw [List.filter_eq_self.mpr hmem3]
    rw [tzStage_absorb tz (rs.filter (fun x => batchPredicate lo hi x)) _
        (fun r hr => mem_of_mem_textStage hr)]
    rw [textStage_absorb q (tzStage tz (rs.filter (fun x => batchPredicate lo hi x))) _
        (fun r hr => hr)]

theorem sum_map_filter_split (l : List String) (p : String → Bool) (f : String → ℕ) :
    ((l.filter p).map f).sum + ((l.filter (fun c => !(p c))).map f).sum
      = (l.map f).sum := by
  induction l with
  | nil => simp
  | cons a t ih =>
    cases hpa : p a <;> simp [List.filter_cons, hpa] <;> omega

theorem sum_map_eq_of_mem_iff {l₁ l₂ : List String} (h₁ : l₁.Nodup) (h₂ : l₂.Nodup)
    (hmem : ∀ a, a ∈ l₁ ↔ a ∈ l₂) (f : String → ℕ) :
    (l₁.map f).sum = (l₂.map f).sum := by
  have hp : List.Perm l₁ l₂ := List.perm_of_nodup_nodup_toFinset_eq h₁ h₂ (by
    ext a
    simp [List.mem_toFinset, hmem a])
  exact (hp.map f).sum_eq

theorem showedUp_add_noShow (rows : List (String × String)) (lits : List String)
    (hl : lits.Nodup) (b : String) :
    showedUp rows lits b + noShow rows lits b = grandTotal rows b := by
  have hsplit := sum_map_filter_split (outcomesOf rows)
    (fun c => decide (c ∈ noShowStatuses rows lits)) (fun o => cellCount rows b o)
  have hshow : showedUp rows lits b
      = (((outcomesOf rows).filter
          (fun c => !(decide (c ∈ noShowStatuses rows lits)))).map
            (fun o => cellCount rows b o)).sum := by
    rw [showedUp, showUpStatuses]
    congr 2
    apply List.filter_congr
    intro c _
    simp
  have hns : noShow rows lits b
      = (((outcomesOf rows).filter
          (fun c => decide (c ∈ noShowStatuses rows lits))).map
            (fun o => cellCount rows b o)).sum := by
    rw [noShow]
    apply sum_map_eq_of_mem_iff (hl.filter _) ((outcomesOf_nodup rows).filter _)
    intro a
    constructor
    · intro ha
      have ha' : a ∈ noShowStatuses rows lits := ha
      exact List.mem_filter.mpr ⟨(mem_noShowStatuses.mp ha').2, decide_eq_true ha'⟩
    · intro h
      have h2 := (List.mem_filter.mp h).2
      have h3 : a ∈ noShowStatuses rows lits := by simpa using h2
      exact h3
  rw [hshow, hns, Nat.add_comm]
  exact hsplit

theorem cellCount_pos {rows : List (String × String)} {p : String × String}
    (hp : p ∈ rows) : 0 < cellCount rows p.1 p.2 := by
  apply List.length_pos_of_mem (a := p)
  exact List.mem_filter.mpr ⟨hp, by simp⟩

theorem grandTotal_pos {rows : List (String × String)} {b : String}
    (hb : b ∈ blocksOf rows) : 0 < grandTotal rows b := by
  obtain ⟨p, hp, rfl⟩ : ∃ p ∈ rows, p.1 = b := by
    obtain ⟨p, hp, he⟩ := List.mem_map.mp (mem_blocksOf.mp hb)
    exact ⟨p, hp, he⟩
  have ho : p.2 ∈ outcomesOf rows := mem_outcomesOf.mpr (List.mem_map_of_mem _ hp)
  have hmem : cellCount rows p.1 p.2
      ∈ (outcomesOf rows).map (fun o => cellCount rows p.1 o) :=
    List.mem_map_of_mem _ ho
  exact lt_of_lt_of_le (cellCount_pos hp) (List.le_sum_of_mem hmem)

theorem totalGrandTotal_pos (rows : List (String × String)) (hne : rows ≠ []) :
    0 < totalGrandTotal rows := by
  obtain ⟨p, hp⟩ := List.exists_mem_of_ne_nil rows hne
  have hb : p.1 ∈ blocksOf rows := mem_blocksOf.mpr (List.mem_map_of_mem _ hp)
  have hmem : grandTotal rows p.1 ∈ (blocksOf rows).map (fun b => grandTotal rows b) :=
    List.mem_map_of_mem _ hb
  exact lt_of_lt_of_le (grandTotal_pos hb) (List.le_sum_of_mem hmem)

/-- C1: in a table built from records whose block and outcome cells are
present (at least one such record), every data row satisfies Showed Up +
No Show = Grand Total, the row's Grand Total being the sum of its raw
outcome counts, and the terminal row's Grand Total is the sum of the data
rows' Grand Totals. -/
theorem aggregate_row_sums (recs : List (Option String × Option String))
    (lits : List String) (hl : lits.Nodup) (hne : cleanRows recs ≠ []) :
    (∀ b ∈ blocksOf (cleanRows recs),
        showedUp (cleanRows recs) lits b + noShow (cleanRows recs) lits b
          = grandTotal (cleanRows recs) b ∧
        grandTotal (cleanRows recs) b
          = ((outcomesOf (cleanRows recs)).map
              (fun o => cellCount (cleanRows recs) b o)).sum) ∧
    totalGrandTotal (cleanRows recs)
      = ((blocksOf (cleanRows recs)).map
          (fun b => grandTotal (cleanRows recs) b)).sum :=
  ⟨fun b _ => ⟨showedUp_add_noShow (cleanRows recs) lits hl b, rfl⟩, rfl⟩

/-- Concrete input from the spec's worked example: three records in one
block, outcomes Showed Up, Cancelled, No-Show. -/
def exampleRecs : List (Option String × Option String) :=
  [(some "08:00-08:30", some "Showed Up"), (some "08:00-08:30", some "Cancelled"),
    (some "08:00-08:30", some "No-Show")]

theorem aggregate_row_sums_witness :
    (stage1NoShowList.Nodup ∧ cleanRows exampleRecs ≠ []) ∧
    ((∀ b ∈ blocksOf (cleanRows exampleRecs),
        showedUp (cleanRows exampleRecs) stage1NoShowList b
            + noShow (cleanRows exampleRecs) stage1NoShowList b
          = grandTotal (cleanRows exampleRecs) b ∧
        grandTotal (cleanRows exampleRecs) b
          = ((outcomesOf (cleanRows exampleRecs)).map
              (fun o => cellCount (cleanRows exampleRecs) b o)).sum) ∧
      totalGrandTotal (cleanRows exampleRecs)
        = ((blocksOf (cleanRows exampleRecs)).map
            (fun b => grandTotal (cleanRows exampleRecs) b)).sum) :=
  ⟨⟨by decide, by decide⟩,
    aggregate_row_sums exampleRecs stage1NoShowList (by decide) (by decide)⟩

/-- C5: the terminal row is the column-wise sum of the data rows on each
count column, its two percentage columns are recomputed from its own
summed numerator and denominator, and its Weight % is the constant 100. -/
theorem terminal_row_recomputed (recs : List (Option String × Option String))
    (lits : List String) (hne : cleanRows recs ≠ []) :
    (∀ o ∈ outcomesOf (cleanRows recs),
        totalCell (cleanRows recs) o
          = ((blocksOf (cleanRows recs)).map
              (fun b => cellCount (cleanRows recs) b o)).sum) ∧
    totalNoShow (cleanRows recs) lits
      = ((blocksOf (cleanRows recs)).map
          (fun b => noShow (cleanRows recs) lits b)).sum ∧
    totalShowedUp (cleanRows recs) lits
      = ((blocksOf (cleanRows recs)).map
          (fun b => showedUp (cleanRows recs) lits b)).sum ∧
    totalShowedUpPct (cleanRows recs) lits
      = some (100 * (totalShowedUp (cleanRows recs) lits : ℚ)
          / (totalGrandTotal (cleanRows recs) : ℚ)) ∧
    totalNoShowPct (cleanRows recs) lits
      = some (100 * (totalNoShow (cleanRows recs) lits : ℚ)
          / (totalGrandTotal (cleanRows recs) : ℚ)) ∧
    totalWeightPct = 100 := by
  have hpos : totalGrandTotal (cleanRows recs) ≠ 0 :=
    Nat.pos_iff_ne_zero.mp (totalGrandTotal_pos (cleanRows recs) hne)
  refine ⟨fun o _ => rfl, rfl, rfl, ?_, ?_, rfl⟩
  · rw [totalShowedUpPct, pctOf, if_neg hpos]
  · rw [totalNoShowPct, pctOf, if_neg hpos]

theorem terminal_row_recomputed_witness :
    cleanRows exampleRecs ≠ [] ∧
    ((∀ o ∈ outcomesOf (cleanRows exampleRecs),
        totalCell (cleanRows exampleRecs) o
          = ((blocksOf (cleanRows exampleRecs)).map
              (fun b => cellCount (cleanRows exampleRecs) b o)).sum) ∧
      totalNoShow (cleanRows exampleRecs) stage1NoShowList
        = ((blocksOf (cleanRows exampleRecs)).map
            (fun b => noShow (cleanRows exampleRecs) stage1NoShowList b)).sum ∧
      totalShowedUp (cleanRows exampleRecs) stage1NoShowList
        = ((blocksOf (cleanRows exampleRecs)).map
            (fun b => showedUp (cleanRows exampleRecs) stage1NoShowList b)).sum ∧
      totalShowedUpPct (cleanRows exampleRecs) stage1NoShowList
        = some (100 * (totalShowedUp (cleanRows exampleRecs) stage1NoShowList : ℚ)
            / (totalGrandTotal (cleanRows exampleRecs) : ℚ)) ∧
      totalNoShowPct (cleanRows exampleRecs) stage1NoShowList
        = some (100 * (totalNoShow (cleanRows exampleRecs) stage1NoShowList : ℚ)
            / (totalGrandTotal (cleanRows exampleRecs) : ℚ)) ∧
      totalWeightPct = 100) :=
  ⟨by decide, terminal_row_recomputed exampleRecs stage1NoShowList (by decide)⟩

/-- C8: a zero Grand Total makes every percentage column evaluate to the
undefined value none rather than an error or a zero, and under the
builder's precondition every data row of a built table, and its terminal
row, have a positive Grand Total, so the zero-denominator branch is
unreachable for them. -/
theorem zero_denominator_safe (recs : List (Option String × Option String))
    (lits : List String) (b : String) :
    (grandTotal (cleanRows recs) b = 0 →
        showedUpPct (cleanRows recs) lits b = none ∧
        noShowPct (cleanRows recs) lits b = none) ∧
    (totalGrandTotal (cleanRows recs) = 0 →
        totalShowedUpPct (cleanRows recs) lits = none ∧
        totalNoShowPct (cleanRows recs) lits = none) ∧
    (b ∈ blocksOf (cleanRows recs) → 0 < grandTotal (cleanRows recs) b) ∧
    (cleanRows recs ≠ [] → 0 < totalGrandTotal (cleanRows recs)) := by
  refine ⟨fun h => ?_, fun h => ?_, fun hb => grandTotal_pos hb,
    fun hne => totalGrandTotal_pos _ hne⟩
  · constructor <;> simp [showedUpPct, noShowPct, pctOf, h]
  · constructor <;> simp [totalShowedUpPct, totalNoShowPct, pctOf, h]

/-- Concrete input whose cleaned row set is empty: the one record lacks an
outcome value, so it is dropped and every aggregate denominator is zero. -/
def droppedRecs : List (Option String × Option String) :=
  [(some "08:00-08:30", none)]

theorem zero_denominator_safe_witness :
    (grandTotal (cleanRows droppedRecs) "x" = 0 ∧
      showedUpPct (cleanRows droppedRecs) stage1NoShowList "x" = none ∧
      noShowPct (cleanRows droppedRecs) stage1NoShowList "x" = none) ∧
    (totalGrandTotal (cleanRows droppedRecs) = 0 ∧
      totalShowedUpPct (cleanRows droppedRecs) stage1NoShowList = none ∧
      totalNoShowPct (cleanRows droppedRecs) stage1NoShowList = none) ∧
    ("08:00-08:30" ∈ blocksOf (cleanRows exampleRecs) ∧
      0 < grandTotal (cleanRows exampleRecs) "08:00-08:30") ∧
    (cleanRows exampleRecs ≠ [] ∧ 0 < totalGrandTotal (cleanRows exampleRecs)) :=
  ⟨⟨by decide,
      (zero_denominator_safe droppedRecs stage1NoShowList "x").1 (by decide)⟩,
    ⟨by decide,
      (zero_denominator_safe droppedRecs stage1NoShowList "x").2.1 (by decide)⟩,
    ⟨by decide,
      (zero_denominator_safe exampleRecs stage1NoShowList "08:00-08:30").2.2.1
        (by decide)⟩,
    ⟨by decide,
      (zero_denominator_safe exampleRecs stage1NoShowList "08:00-08:30").2.2.2
        (by decide)⟩⟩

end NoShowAnalysis
